import Mathlib

/-!
Shallow embedding of the gesture-classification core of the hand-recognition
component (`HandRecognition.tsx`).

Modelling conventions:
* JavaScript numbers are modelled as exact rationals (`ℚ`); the pixel data of
  an `ImageData` and all landmark coordinates are rationals.
* `Math.sqrt(d) < c` (for the constants `c = 0.05` of the static classifier,
  which are positive, and `d ≥ 0` a sum of squares) is equivalent over the
  reals to `d < c ^ 2`; the static classifier uses that squared form.  The
  tracking classifier adds three square roots, which has no exact rational
  form, so `Math.sqrt` is a function parameter `msqrt` there; theorems either
  hold for every `msqrt` or assume only `msqrt 0 = 0`, which holds for the
  real square root.
* Reading a property of a missing array element (JavaScript `undefined.y`)
  throws a `TypeError`; landmark access is therefore modelled in
  `Except Unit`, erring exactly when the source would throw.  `&&` chains
  short-circuit, so an access that the source skips is also skipped here.
-/

structure Point where
  x : ℚ
  y : ℚ
  z : ℚ
  deriving DecidableEq

structure GestureResult where
  gesture : String
  confidence : ℚ
  deriving DecidableEq

/-- Landmark access `points[i]` followed by a property read: a missing
element is JavaScript `undefined`, whose property read throws. -/
def getPt (points : List Point) (i : Nat) : Except Unit Point :=
  match points.get? i with
  | some p => .ok p
  | none => .error ()

/-- One curl comparison `points[i].y < points[j].y`. -/
def cmpLt (points : List Point) (i j : Nat) : Except Unit Bool :=
  match getPt points i, getPt points j with
  | .ok a, .ok b => .ok (decide (a.y < b.y))
  | .error e, _ => .error e
  | _, .error e => .error e

/-- One curl comparison `points[i].y > points[j].y`. -/
def cmpGt (points : List Point) (i j : Nat) : Except Unit Bool :=
  match getPt points i, getPt points j with
  | .ok a, .ok b => .ok (decide (a.y > b.y))
  | .error e, _ => .error e
  | _, .error e => .error e

/-- Short-circuiting `&&`: the right operand is only evaluated when the left
one is `true`. -/
def andE (a b : Except Unit Bool) : Except Unit Bool :=
  match a with
  | .error e => .error e
  | .ok c => if c then b else .ok false

/-- Embedding of `analyzeStaticGesture` (HandRecognition.tsx, lines 157-215).
The six rules are checked in source order: Thumbs Up, Peace Sign, Pointing,
Open Palm, Fist, and last the thumb-index distance check for OK Hand
(`Math.sqrt ((x4-x8)^2 + (y4-y8)^2) < 0.05`, here in squared form). -/
def analyzeStaticGesture (points : List Point) : Except Unit (Option GestureResult) :=
  match andE (cmpLt points 4 3) (cmpLt points 4 2) with
  | .error e => .error e
  | .ok thumbUp =>
  match (if thumbUp then
           andE (cmpGt points 8 6) (andE (cmpGt points 12 10)
             (andE (cmpGt points 16 14) (cmpGt points 20 18)))
         else .ok false) with
  | .error e => .error e
  | .ok thumbsUpHit =>
  if thumbsUpHit then .ok (some ⟨"Thumbs Up", 92⟩) else
  match andE (cmpLt points 8 6) (andE (cmpLt points 12 10)
        (andE (cmpGt points 16 14) (cmpGt points 20 18))) with
  | .error e => .error e
  | .ok peace =>
  if peace then .ok (some ⟨"Peace Sign", 88⟩) else
  match andE (cmpLt points 8 6) (andE (cmpGt points 12 10)
        (andE (cmpGt points 16 14) (cmpGt points 20 18))) with
  | .error e => .error e
  | .ok pointing =>
  if pointing then .ok (some ⟨"Pointing", 85⟩) else
  match andE (cmpLt points 8 6) (andE (cmpLt points 12 10)
        (andE (cmpLt points 16 14) (cmpLt points 20 18))) with
  | .error e => .error e
  | .ok allFingersUp =>
  if allFingersUp then .ok (some ⟨"Open Palm", 83⟩) else
  match andE (cmpGt points 8 6) (andE (cmpGt points 12 10)
        (andE (cmpGt points 16 14) (cmpGt points 20 18))) with
  | .error e => .error e
  | .ok allFingersDown =>
  if allFingersDown then .ok (some ⟨"Fist", 80⟩) else
  match getPt points 4, getPt points 8 with
  | .ok p4, .ok p8 =>
    if (p4.x - p8.x) ^ 2 + (p4.y - p8.y) ^ 2 < (0.05 : ℚ) ^ 2 then
      .ok (some ⟨"OK Hand", 90⟩)
    else .ok none
  | .error e, _ => .error e
  | _, .error e => .error e

/-- Embedding of `analyzeTrackingGesture` (lines 267-293).  The source binds
`const wrist = points[0]` but never reads a property of it, so no access
error can arise from the wrist; the four fingertips are all dereferenced by
the spread loop.  `totalSpread` adds three Euclidean distances, computed with
the square-root parameter `msqrt`. -/
def analyzeTrackingGesture (msqrt : ℚ → ℚ) (points : List Point) :
    Except Unit (Option GestureResult) :=
  match getPt points 8, getPt points 12, getPt points 16, getPt points 20 with
  | .ok f0, .ok f1, .ok f2, .ok f3 =>
    let totalSpread :=
      msqrt ((f0.x - f1.x) ^ 2 + (f0.y - f1.y) ^ 2)
        + msqrt ((f1.x - f2.x) ^ 2 + (f1.y - f2.y) ^ 2)
        + msqrt ((f2.x - f3.x) ^ 2 + (f2.y - f3.y) ^ 2)
    if totalSpread < (0.15 : ℚ) then .ok (some ⟨"Pinch", 87⟩)
    else if totalSpread > (0.4 : ℚ) then .ok (some ⟨"Spread", 85⟩)
    else .ok none
  | .error e, _, _, _ => .error e
  | _, .error e, _, _ => .error e
  | _, _, .error e, _ => .error e
  | _, _, _, .error e => .error e

/-- The degenerate hand of the spec: 21 landmarks, all `(0, 0, 0)`. -/
def zeroHand : List Point := List.replicate 21 ⟨0, 0, 0⟩

/-- Raw canvas pixels: RGBA channels flattened into `data`, row-major,
four entries per pixel. -/
structure ImageData where
  width : Nat
  height : Nat
  data : List ℚ
  deriving DecidableEq

/-- Contribution of the pixel whose data offset is `4*k` to the loop of
`analyzeDynamicGesture` (lines 230-246): the triple of increments to
`(motionMagnitude, horizontalMotion, verticalMotion)`.  A missing channel is
JavaScript `undefined`; the resulting `NaN` difference fails the
`diff > motionThreshold` test, so such a pixel contributes nothing (last
match arm).  Likewise, when `current.width = 0`, `x` is `NaN` and `y` is
`NaN` (for `k = 0`) or `Infinity`, so only the `y > height * 0.6` band test
can succeed. -/
def pixelTriple (motionThreshold : ℚ) (current previous : ImageData) (k : Nat) :
    ℚ × ℚ × ℚ :=
  match current.data.get? (4*k), current.data.get? (4*k+1), current.data.get? (4*k+2),
        previous.data.get? (4*k), previous.data.get? (4*k+1), previous.data.get? (4*k+2) with
  | some c0, some c1, some c2, some q0, some q1, some q2 =>
    let currGray := (c0 + c1 + c2) / 3
    let prevGray := (q0 + q1 + q2) / 3
    let diff := |currGray - prevGray|
    if diff > motionThreshold then
      if current.width = 0 then
        (diff, 0, if k = 0 then 0 else diff)
      else
        (diff,
         (if ((k % current.width : Nat) : ℚ) > (current.width : ℚ) * 0.6 then diff else 0)
           + (if ((k % current.width : Nat) : ℚ) < (current.width : ℚ) * 0.4 then -diff else 0),
         (if ((k / current.width : Nat) : ℚ) > (current.height : ℚ) * 0.6 then diff else 0)
           + (if ((k / current.width : Nat) : ℚ) < (current.height : ℚ) * 0.4 then -diff else 0))
    else (0, 0, 0)
  | _, _, _, _, _, _ => (0, 0, 0)

/-- The accumulation loop `for (let i = 0; i < current.data.length; i += 4)`
of `analyzeDynamicGesture`: it runs `⌈length/4⌉` times with `i = 4*k`. -/
def motionStats (motionThreshold : ℚ) (current previous : ImageData) : ℚ × ℚ × ℚ :=
  (List.range ((current.data.length + 3) / 4)).foldl
    (fun acc k =>
      (acc.1 + (pixelTriple motionThreshold current previous k).1,
       acc.2.1 + (pixelTriple motionThreshold current previous k).2.1,
       acc.2.2 + (pixelTriple motionThreshold current previous k).2.2))
    (0, 0, 0)

/-- Embedding of `analyzeDynamicGesture` (lines 218-264). -/
def analyzeDynamicGesture (motionThreshold : ℚ) (frames : List ImageData) :
    Option GestureResult :=
  if frames.length < 3 then none
  else
    match frames.get? (frames.length - 1), frames.get? (frames.length - 2) with
    | some current, some previous =>
      let s := motionStats motionThreshold current previous
      if s.1 > 1000 then
        if |s.2.1| > |s.2.2| then
          some ⟨if s.2.1 > 0 then "Swipe Right" else "Swipe Left",
                min 85 (60 + s.1 / 100)⟩
        else
          some ⟨if s.2.2 > 0 then "Swipe Down" else "Swipe Up",
                min 85 (60 + s.1 / 100)⟩
      else none
    | _, _ => none

/-- The `detectionMethod` setting, a closed enum in place of the string
union type of the source. -/
inductive DetectionMethod
  | manual
  | frameDiff
  | objectDetection
  deriving DecidableEq

/-- One detected hand, as handed to `analyzeGesture` inside the entries of
its `landmarks` argument. -/
structure Hand where
  landmarks : List Point
  deriving DecidableEq

/-- Embedding of `addCustomGesture` (lines 296-304): append the label unless
it is already present. -/
def addCustomGesture (customGestures : List String) (gesture : String) : List String :=
  if gesture ∈ customGestures then customGestures else customGestures ++ [gesture]

/-- The learning-mode step of `analyzeGesture` (lines 148-151):
`if (isLearningMode && gestureResult && confidence > 70) addCustomGesture(...)`. -/
def learnStep (isLearningMode : Bool) (gestureResult : Option String) (confidence : ℚ)
    (customGestures : List String) : List String :=
  match gestureResult with
  | some g =>
    if isLearningMode ∧ confidence > 70 then addCustomGesture customGestures g
    else customGestures
  | none => customGestures

/-- Embedding of `analyzeGesture` (lines 104-154), the per-frame arbiter.
State that the source keeps in React state is passed explicitly:
`frameBuffer` and `customGestures` are the values captured when the callback
runs (the frame-buffer push of lines 113-117 is `pushFrame` below and only
affects later frames, since `setFrameBuffer` does not change the captured
`frameBuffer`).  The returned pair is the classification outcome and the
updated custom-gesture list. -/
def analyzeGesture (msqrt : ℚ → ℚ) (detectionMethod : DetectionMethod)
    (motionThreshold : ℚ) (isLearningMode : Bool)
    (frameBuffer : List ImageData) (customGestures : List String)
    (landmarks : List Hand) : Except Unit (Option GestureResult × List String) :=
  match landmarks with
  | [] => .ok (none, customGestures)
  | hand :: _ =>
    match analyzeStaticGesture hand.landmarks with
    | .error e => .error e
    | .ok staticGesture =>
      let g0 : Option String := staticGesture.map (fun r => r.gesture)
      let c0 : ℚ := match staticGesture with | some r => r.confidence | none => 0
      let d1 : Option String × ℚ :=
        if detectionMethod = DetectionMethod.frameDiff ∧ 3 ≤ frameBuffer.length then
          match analyzeDynamicGesture motionThreshold frameBuffer with
          | some d => if d.confidence > c0 then (some d.gesture, d.confidence) else (g0, c0)
          | none => (g0, c0)
        else (g0, c0)
      match (if detectionMethod = DetectionMethod.objectDetection then
               analyzeTrackingGesture msqrt hand.landmarks
             else .ok none) with
      | .error e => .error e
      | .ok trackingGesture =>
        let d2 : Option String × ℚ :=
          match trackingGesture with
          | some t => if t.confidence > d1.2 then (some t.gesture, t.confidence) else d1
          | none => d1
        .ok (d2.1.map (fun g => ⟨g, d2.2⟩),
             learnStep isLearningMode d2.1 d2.2 customGestures)

/-- `maxFrameBuffer` (line 66). -/
def maxFrameBuffer : Nat := 10

/-- The frame-buffer update of `analyzeGesture` (lines 113-117):
`[...prev.slice(1), frameData]` once the buffer is full, plain append
otherwise, and no change when no `frameData` was passed. -/
def pushFrame (frameBuffer : List ImageData) (frameData : Option ImageData) :
    List ImageData :=
  match frameData with
  | some fd =>
    if maxFrameBuffer ≤ frameBuffer.length then frameBuffer.drop 1 ++ [fd]
    else frameBuffer ++ [fd]
  | none => frameBuffer

/-- One gesture-history entry (line 59 / lines 329-333). -/
structure GestureHistoryEntry where
  gesture : String
  timestamp : Int
  confidence : ℚ
  deriving DecidableEq

/-- The history update of `processVideoFrame` (line 334):
`[...prev.slice(-19), newGestureEntry]`; `slice(-19)` keeps the last 19
entries (or all of them when fewer). -/
def pushHistory (gestureHistory : List GestureHistoryEntry)
    (entry : GestureHistoryEntry) : List GestureHistoryEntry :=
  gestureHistory.drop (gestureHistory.length - 19) ++ [entry]

/-- The sequence update of `processVideoFrame` (line 337):
`[...prev.slice(-4), gestureResult.gesture]`. -/
def pushSequence (gestureSequence : List String) (gesture : String) : List String :=
  gestureSequence.drop (gestureSequence.length - 4) ++ [gesture]

/-- `sessionStats` (lines 39-43). -/
structure SessionStats where
  gesturesDetected : Nat
  accuracy : ℚ
  sessionTime : Nat
  deriving DecidableEq

/-- The component state touched by `resetSession`. -/
structure SessionState where
  sessionStats : SessionStats
  recognizedGesture : Option String
  confidence : ℚ
  gestureHistory : List GestureHistoryEntry
  gestureSequence : List String
  frameBuffer : List ImageData
  customGestures : List String
  deriving DecidableEq

/-- Embedding of `resetSession` (lines 442-453): stats to zero, current
recognition cleared, history, sequence and frame buffer emptied.
`customGestures` is not touched by the source. -/
def resetSession (s : SessionState) : SessionState :=
  { s with
    sessionStats := ⟨0, 0, 0⟩,
    recognizedGesture := none,
    confidence := 0,
    gestureHistory := [],
    gestureSequence := [],
    frameBuffer := [] }

/-- The labels the three classifiers can produce (the spec's fixed set). -/
def gestureLabelSet : List String :=
  ["Thumbs Up", "Peace Sign", "Pointing", "Open Palm", "Fist", "OK Hand",
   "Swipe Right", "Swipe Left", "Swipe Up", "Swipe Down", "Pinch", "Spread"]

/-- Landmark `i` of a hand, with a default for out-of-range indices; used
only to phrase geometric conditions about 21-point hands. -/
def ptD (points : List Point) (i : Nat) : Point := points.getD i ⟨0, 0, 0⟩

/-- The Open Palm geometric condition of the spec: all four non-thumb
fingertips above (smaller `y` than) their lower joints. -/
def openPalmCond (points : List Point) : Prop :=
  (ptD points 8).y < (ptD points 6).y ∧ (ptD points 12).y < (ptD points 10).y ∧
    (ptD points 16).y < (ptD points 14).y ∧ (ptD points 20).y < (ptD points 18).y

instance (points : List Point) : Decidable (openPalmCond points) := by
  unfold openPalmCond; infer_instance

/-- The OK Hand geometric condition of the spec: thumb tip to index tip
distance below `0.05` (stated on the squares, which is equivalent). -/
def okHandCond (points : List Point) : Prop :=
  ((ptD points 4).x - (ptD points 8).x) ^ 2 + ((ptD points 4).y - (ptD points 8).y) ^ 2
    < (0.05 : ℚ) ^ 2

instance (points : List Point) : Decidable (okHandCond points) := by
  unfold okHandCond; infer_instance

/-- Spec-side luminance of pixel `k`: the mean of the three colour channels. -/
def gray (img : ImageData) (k : Nat) : ℚ :=
  (img.data.getD (4*k) 0 + img.data.getD (4*k+1) 0 + img.data.getD (4*k+2) 0) / 3

/-- Spec-side per-pixel luminance difference. -/
def lumDiff (current previous : ImageData) (k : Nat) : ℚ :=
  |gray current k - gray previous k|

/-- Spec-side accumulated `motionMagnitude`: the sum, over all pixels whose
luminance difference exceeds the threshold, of that difference. -/
def motionMagnitude (motionThreshold : ℚ) (current previous : ImageData) : ℚ :=
  ((List.range (current.width * current.height)).map
     (fun k => if lumDiff current previous k > motionThreshold
               then lumDiff current previous k else 0)).sum

/-- Spec-side signed horizontal band contribution of a pixel in column
`k % width`: `+d` in the right 40% band, `-d` in the left 40% band. -/
def hBand (current : ImageData) (k : Nat) (d : ℚ) : ℚ :=
  (if ((k % current.width : Nat) : ℚ) > (current.width : ℚ) * 0.6 then d else 0)
    + (if ((k % current.width : Nat) : ℚ) < (current.width : ℚ) * 0.4 then -d else 0)

/-- Spec-side signed vertical band contribution of a pixel in row
`k / width`. -/
def vBand (current : ImageData) (k : Nat) (d : ℚ) : ℚ :=
  (if ((k / current.width : Nat) : ℚ) > (current.height : ℚ) * 0.6 then d else 0)
    + (if ((k / current.width : Nat) : ℚ) < (current.height : ℚ) * 0.4 then -d else 0)

/-- Spec-side accumulated `horizontalMotion`. -/
def horizontalMotion (motionThreshold : ℚ) (current previous : ImageData) : ℚ :=
  ((List.range (current.width * current.height)).map
     (fun k => if lumDiff current previous k > motionThreshold
               then hBand current k (lumDiff current previous k) else 0)).sum

/-- Spec-side accumulated `verticalMotion`. -/
def verticalMotion (motionThreshold : ℚ) (current previous : ImageData) : ℚ :=
  ((List.range (current.width * current.height)).map
     (fun k => if lumDiff current previous k > motionThreshold
               then vBand current k (lumDiff current previous k) else 0)).sum

/-- Confidence of an optional result, `0` for `null` (the arbiter's initial
`confidence = 0`). -/
def confOf : Option GestureResult → ℚ
  | some r => r.confidence
  | none => 0

/-- The spec's override rule: a challenger replaces the current winner
exactly when its confidence is strictly greater. -/
def applyOverride (current challenger : Option GestureResult) : Option GestureResult :=
  match challenger with
  | some c => if c.confidence > confOf current then some c else current
  | none => current

/-- The spec's winner for one frame: the static result, then the dynamic
override (only for `frame-diff` with at least 3 buffered frames), then the
tracking override (only for `object-detection`). -/
def arbiterWinner (detectionMethod : DetectionMethod) (motionThreshold : ℚ)
    (frameBuffer : List ImageData) (staticResult trackingResult : Option GestureResult) :
    Option GestureResult :=
  match detectionMethod with
  | .manual => staticResult
  | .frameDiff =>
    if 3 ≤ frameBuffer.length then
      applyOverride staticResult (analyzeDynamicGesture motionThreshold frameBuffer)
    else staticResult
  | .objectDetection => applyOverride staticResult trackingResult

/-- The spec's learning rule: with learning mode active, the winning label
is appended exactly when the winning confidence is strictly greater than 70
and the label is not already present. -/
def learnSpec (result : Option GestureResult) (customGestures : List String) :
    List String :=
  match result with
  | some r =>
    if r.confidence > 70 ∧ r.gesture ∉ customGestures
    then customGestures ++ [r.gesture] else customGestures
  | none => customGestures

instance {e a : Type} [DecidableEq e] [DecidableEq a] : DecidableEq (Except e a) :=
  fun x y =>
    match x, y with
    | .ok u, .ok v =>
      if h : u = v then .isTrue (by rw [h]) else .isFalse (fun hc => h (Except.ok.inj hc))
    | .error u, .error v =>
      if h : u = v then .isTrue (by rw [h]) else .isFalse (fun hc => h (Except.error.inj hc))
    | .ok _, .error _ => .isFalse (fun hc => Except.noConfusion hc)
    | .error _, .ok _ => .isFalse (fun hc => Except.noConfusion hc)

/-- A 21-point hand satisfying simultaneously the Open Palm curl conditions
(all four non-thumb fingertips above their lower joints) and the OK Hand
thumb-index distance condition (thumb tip and index tip coincide).  The
thumb-up precondition fails (`y4 > y3`), ring and pinky are extended, so the
first matching rule is Open Palm. -/
def okPalmHand : List Point :=
  [⟨0, 0, 0⟩, ⟨0, 0, 0⟩, ⟨0, 0, 0⟩, ⟨1/2, 2/5, 0⟩, ⟨1/2, 1/2, 0⟩,
   ⟨0, 0, 0⟩, ⟨1/2, 3/5, 0⟩, ⟨0, 0, 0⟩, ⟨1/2, 1/2, 0⟩,
   ⟨0, 0, 0⟩, ⟨3/5, 3/5, 0⟩, ⟨0, 0, 0⟩, ⟨3/5, 1/2, 0⟩,
   ⟨0, 0, 0⟩, ⟨7/10, 3/5, 0⟩, ⟨0, 0, 0⟩, ⟨7/10, 1/2, 0⟩,
   ⟨0, 0, 0⟩, ⟨4/5, 3/5, 0⟩, ⟨0, 0, 0⟩, ⟨4/5, 1/2, 0⟩]

/-- A uniform grey 10 by 10 frame (every channel 100). -/
def frameA : ImageData := ⟨10, 10, List.replicate 400 100⟩

/-- The same frame with a uniform luminance shift of +80 on the right 50%
of the pixels (columns 5 to 9). -/
def frameB : ImageData :=
  ⟨10, 10, (List.range 400).map (fun i => if 5 ≤ (i / 4) % 10 then 180 else 100)⟩

theorem get?_eq_some_getD {α : Type} (l : List α) (d : α) (i : Nat)
    (h : i < l.length) : l.get? i = some (l.getD i d) := by
  rw [List.getD_eq_getElem?_getD]
  cases h' : l.get? i with
  | none => exact absurd (List.get?_eq_none.mp h') (by omega)
  | some v => simp [← List.get?_eq_getElem?, h']

theorem foldl_triple (f : Nat → ℚ × ℚ × ℚ) :
    ∀ (l : List Nat) (a : ℚ × ℚ × ℚ),
      l.foldl (fun acc k => (acc.1 + (f k).1, acc.2.1 + (f k).2.1, acc.2.2 + (f k).2.2)) a
        = (a.1 + (l.map (fun k => (f k).1)).sum,
           a.2.1 + (l.map (fun k => (f k).2.1)).sum,
           a.2.2 + (l.map (fun k => (f k).2.2)).sum)
  | [], a => by simp
  | x :: xs, a => by
    simp only [List.foldl_cons, foldl_triple f xs, List.map_cons, List.sum_cons]
    refine Prod.ext ?_ (Prod.ext ?_ ?_) <;> dsimp <;> ring

theorem pixelTriple_eq (t : ℚ) (cur prev : ImageData) (k : Nat)
    (hk : k < cur.width * cur.height)
    (hc : cur.data.length = 4 * (cur.width * cur.height))
    (hp : prev.data.length = cur.data.length) :
    pixelTriple t cur prev k =
      (if lumDiff cur prev k > t then lumDiff cur prev k else 0,
       if lumDiff cur prev k > t then hBand cur k (lumDiff cur prev k) else 0,
       if lumDiff cur prev k > t then vBand cur k (lumDiff cur prev k) else 0) := by
  have hw : cur.width ≠ 0 := by
    intro h
    rw [h, Nat.zero_mul] at hk
    omega
  have h0 : 4*k < cur.data.length := by omega
  have h1 : 4*k+1 < cur.data.length := by omega
  have h2 : 4*k+2 < cur.data.length := by omega
  have g0 : 4*k < prev.data.length := by omega
  have g1 : 4*k+1 < prev.data.length := by omega
  have g2 : 4*k+2 < prev.data.length := by omega
  unfold pixelTriple
  rw [get?_eq_some_getD _ 0 _ h0, get?_eq_some_getD _ 0 _ h1, get?_eq_some_getD _ 0 _ h2,
      get?_eq_some_getD _ 0 _ g0, get?_eq_some_getD _ 0 _ g1, get?_eq_some_getD _ 0 _ g2]
  simp only [lumDiff, gray, hBand, vBand]
  split_ifs with hd <;> rfl

theorem motionStats_eq (t : ℚ) (cur prev : ImageData)
    (hc : cur.data.length = 4 * (cur.width * cur.height))
    (hp : prev.data.length = cur.data.length) :
    motionStats t cur prev =
      (motionMagnitude t cur prev, horizontalMotion t cur prev, verticalMotion t cur prev) := by
  have hpt : ∀ k ∈ List.range (cur.width * cur.height),
      pixelTriple t cur prev k =
        (if lumDiff cur prev k > t then lumDiff cur prev k else 0,
         if lumDiff cur prev k > t then hBand cur k (lumDiff cur prev k) else 0,
         if lumDiff cur prev k > t then vBand cur k (lumDiff cur prev k) else 0) :=
    fun k hk => pixelTriple_eq t cur prev k (List.mem_range.mp hk) hc hp
  have hn : (cur.data.length + 3) / 4 = cur.width * cur.height := by omega
  unfold motionStats motionMagnitude horizontalMotion verticalMotion
  rw [hn, foldl_triple (pixelTriple t cur prev)]
  refine Prod.ext ?_ (Prod.ext ?_ ?_) <;> dsimp <;> rw [zero_add]
  · exact congrArg List.sum
      (List.map_congr_left (fun k hk => congrArg Prod.fst (hpt k hk)))
  · exact congrArg List.sum
      (List.map_congr_left (fun k hk => congrArg (fun p => p.2.1) (hpt k hk)))
  · exact congrArg List.sum
      (List.map_congr_left (fun k hk => congrArg (fun p => p.2.2) (hpt k hk)))

theorem getPt_ok (points : List Point) (i : Nat) (h : i < points.length) :
    getPt points i = .ok (ptD points i) := by
  unfold getPt ptD
  rw [get?_eq_some_getD points ⟨0, 0, 0⟩ i h]

theorem cmpLt_ok (points : List Point) (i j : Nat)
    (hi : i < points.length) (hj : j < points.length) :
    cmpLt points i j = .ok (decide ((ptD points i).y < (ptD points j).y)) := by
  unfold cmpLt
  rw [getPt_ok _ _ hi, getPt_ok _ _ hj]

theorem cmpGt_ok (points : List Point) (i j : Nat)
    (hi : i < points.length) (hj : j < points.length) :
    cmpGt points i j = .ok (decide ((ptD points i).y > (ptD points j).y)) := by
  unfold cmpGt
  rw [getPt_ok _ _ hi, getPt_ok _ _ hj]

@[simp] theorem andE_ok_true (b : Except Unit Bool) : andE (.ok true) b = b := rfl

@[simp] theorem andE_ok_false (b : Except Unit Bool) :
    andE (.ok false) b = .ok false := rfl

@[simp] theorem andE_error (e : Unit) (b : Except Unit Bool) :
    andE (.error e) b = .error e := rfl

theorem analyzeStaticGesture_labels (points : List Point) (r : GestureResult)
    (h : analyzeStaticGesture points = .ok (some r)) : r.gesture ∈ gestureLabelSet := by
  unfold analyzeStaticGesture at h
  repeat' (first | split at h | split_ifs at h)
  all_goals (cases h <;> decide)

theorem analyzeTrackingGesture_labels (msqrt : ℚ → ℚ) (points : List Point)
    (r : GestureResult) (h : analyzeTrackingGesture msqrt points = .ok (some r)) :
    r.gesture ∈ gestureLabelSet := by
  unfold analyzeTrackingGesture at h
  simp only [] at h
  repeat' (first | split at h | split_ifs at h)
  all_goals (cases h <;> decide)

theorem analyzeDynamicGesture_labels (t : ℚ) (frames : List ImageData)
    (r : GestureResult) (h : analyzeDynamicGesture t frames = some r) :
    r.gesture ∈ gestureLabelSet := by
  unfold analyzeDynamicGesture at h
  simp only [] at h
  repeat' (first | split at h | split_ifs at h)
  all_goals (cases h <;> simp [gestureLabelSet])

/-- Claim C1 (counterexample): `okPalmHand` satisfies both the Open Palm
curl conditions and the OK Hand thumb-index distance condition, yet the
static classifier returns Open Palm (confidence 83) and not the OK Hand
result (confidence 90): the distance-based check does not win, because the
curl rules are evaluated first. -/
theorem c1_okHand_priority_counterexample :
    openPalmCond okPalmHand ∧ okHandCond okPalmHand ∧
      analyzeStaticGesture okPalmHand = .ok (some ⟨"Open Palm", 83⟩) ∧
      analyzeStaticGesture okPalmHand ≠ .ok (some ⟨"OK Hand", 90⟩) := by
  with_unfolding_all decide

/-- Claim C1 (amended): for every 21-point hand whose landmarks satisfy both
the Open Palm curl conditions and the OK Hand thumb-index distance
condition, the static classifier returns Open Palm (confidence 83): the
finger-curl rules take priority, and the distance-based OK Hand check only
applies when no curl rule matched. -/
theorem c1_okHand_priority_amended (points : List Point)
    (hlen : points.length = 21) (hpalm : openPalmCond points)
    (_hok : okHandCond points) :
    analyzeStaticGesture points = .ok (some ⟨"Open Palm", 83⟩) := by
  obtain ⟨h8, h12, h16, h20⟩ := hpalm
  have l2 : (2:Nat) < points.length := by omega
  have l3 : (3:Nat) < points.length := by omega
  have l4 : (4:Nat) < points.length := by omega
  have l6 : (6:Nat) < points.length := by omega
  have l8 : (8:Nat) < points.length := by omega
  have l10 : (10:Nat) < points.length := by omega
  have l12 : (12:Nat) < points.length := by omega
  have l14 : (14:Nat) < points.length := by omega
  have l16 : (16:Nat) < points.length := by omega
  have l18 : (18:Nat) < points.length := by omega
  have l20 : (20:Nat) < points.length := by omega
  unfold analyzeStaticGesture
  rw [cmpLt_ok points 4 3 l4 l3, cmpLt_ok points 4 2 l4 l2,
      cmpGt_ok points 8 6 l8 l6, cmpLt_ok points 8 6 l8 l6,
      cmpGt_ok points 12 10 l12 l10, cmpLt_ok points 12 10 l12 l10,
      cmpGt_ok points 16 14 l16 l14, cmpLt_ok points 16 14 l16 l14,
      cmpGt_ok points 20 18 l20 l18, cmpLt_ok points 20 18 l20 l18]
  by_cases h43 : (ptD points 4).y < (ptD points 3).y <;>
    by_cases h42 : (ptD points 4).y < (ptD points 2).y <;>
      simp [h43, h42, h8, h12, h16, h20,
            lt_asymm h8, lt_asymm h12, lt_asymm h16, lt_asymm h20]

/-- Claim C1 (witness): the amended theorem at the concrete hand
`okPalmHand`. -/
theorem c1_okHand_priority_witness :
    analyzeStaticGesture okPalmHand = .ok (some ⟨"Open Palm", 83⟩) :=
  c1_okHand_priority_amended okPalmHand rfl
    (by with_unfolding_all decide) (by with_unfolding_all decide)

/-- Claim C2 (code bug): on a hand input with fewer than 21 points the
static and tracking classifiers do not return null as the spec requires:
already on the empty hand both throw (the source reads `points[4].y`
resp. `points[8].x` of `undefined`), modelled here as `Except.error`. -/
theorem c2_malformed_input_throws :
    analyzeStaticGesture [] = .error () ∧
      ∀ msqrt : ℚ → ℚ, analyzeTrackingGesture msqrt [] = .error () :=
  ⟨rfl, fun _ => rfl⟩

/-- Claim C3 (counterexample): the all-zero 21-point hand does not make the
classifiers return null: the static classifier returns OK Hand with
confidence 90, since the thumb-index distance is 0 < 0.05. -/
theorem c3_zero_hand_counterexample :
    analyzeStaticGesture zeroHand = .ok (some ⟨"OK Hand", 90⟩) ∧
      analyzeStaticGesture zeroHand ≠ .ok none := by
  with_unfolding_all decide

/-- Claim C3 (amended): the degenerate all-zero hand never causes an
exception, but instead of null the static classifier returns OK Hand
(confidence 90) and the tracking classifier returns Pinch (confidence 87),
for every square-root function with `msqrt 0 = 0`; the dynamic classifier
takes frames, not hands, and returns null whenever fewer than 3 frames are
buffered. -/
theorem c3_zero_hand_amended :
    analyzeStaticGesture zeroHand = .ok (some ⟨"OK Hand", 90⟩) ∧
      (∀ msqrt : ℚ → ℚ, msqrt 0 = 0 →
        analyzeTrackingGesture msqrt zeroHand = .ok (some ⟨"Pinch", 87⟩)) ∧
      (∀ (t : ℚ) (frames : List ImageData), frames.length < 3 →
        analyzeDynamicGesture t frames = none) := by
  refine ⟨by with_unfolding_all decide, ?_, ?_⟩
  · intro msqrt h0
    have g8 : getPt zeroHand 8 = .ok ⟨0, 0, 0⟩ := rfl
    have g12 : getPt zeroHand 12 = .ok ⟨0, 0, 0⟩ := rfl
    have g16 : getPt zeroHand 16 = .ok ⟨0, 0, 0⟩ := rfl
    have g20 : getPt zeroHand 20 = .ok ⟨0, 0, 0⟩ := rfl
    unfold analyzeTrackingGesture
    rw [g8, g12, g16, g20]
    norm_num [h0]
  · intro t frames hlt
    unfold analyzeDynamicGesture
    rw [if_pos hlt]

/-- Claim C3 (witness): the amended theorem applied with the zero square
root and an empty frame list. -/
theorem c3_zero_hand_witness :
    analyzeTrackingGesture (fun _ => 0) zeroHand = .ok (some ⟨"Pinch", 87⟩) ∧
      analyzeDynamicGesture 50 [] = none :=
  ⟨c3_zero_hand_amended.2.1 (fun _ => 0) rfl,
   c3_zero_hand_amended.2.2 50 [] (by decide)⟩

theorem pushHistory_length (h : List GestureHistoryEntry) (e : GestureHistoryEntry) :
    (pushHistory h e).length = h.length - (h.length - 19) + 1 := by
  unfold pushHistory
  simp

theorem foldl_pushHistory (es : List GestureHistoryEntry) :
    ∀ init : List GestureHistoryEntry, init.length ≤ 20 →
      List.foldl pushHistory init es = (init ++ es).drop (init.length + es.length - 20) := by
  induction es with
  | nil =>
    intro init h
    simp only [List.foldl_nil, List.append_nil, List.length_nil, Nat.add_zero]
    rw [Nat.sub_eq_zero_of_le h, List.drop_zero]
  | cons e es ih =>
    intro init h
    have hlen : (pushHistory init e).length = init.length - (init.length - 19) + 1 :=
      pushHistory_length init e
    rw [List.foldl_cons, ih (pushHistory init e) (by omega), hlen]
    unfold pushHistory
    rw [List.append_assoc, List.singleton_append,
        ← List.drop_append_of_le_length (by omega : init.length - 19 ≤ init.length),
        List.drop_drop]
    congr 1
    simp only [List.length_cons]
    omega

theorem pushFrame_length (b : List ImageData) (f : ImageData) :
    (pushFrame b (some f)).length =
      (if maxFrameBuffer ≤ b.length then b.length - 1 else b.length) + 1 := by
  unfold pushFrame
  split_ifs with hfull <;> simp

theorem foldl_pushFrame (fs : List ImageData) :
    ∀ init : List ImageData, init.length ≤ 10 →
      List.foldl (fun b f => pushFrame b (some f)) init fs =
        (init ++ fs).drop (init.length + fs.length - 10) := by
  induction fs with
  | nil =>
    intro init h
    simp only [List.foldl_nil, List.append_nil, List.length_nil, Nat.add_zero]
    rw [Nat.sub_eq_zero_of_le h, List.drop_zero]
  | cons f fs ih =>
    intro init h
    have hlen : (pushFrame init (some f)).length =
        (if maxFrameBuffer ≤ init.length then init.length - 1 else init.length) + 1 :=
      pushFrame_length init f
    have hcap : maxFrameBuffer = 10 := rfl
    rw [hcap] at hlen
    have hpush : pushFrame init (some f) = init.drop (init.length - 9) ++ [f] := by
      unfold pushFrame
      rw [hcap]
      split_ifs with hfull
      · have h9 : init.length - 9 = 1 := by omega
        rw [h9]
      · have h9 : init.length - 9 = 0 := by omega
        rw [h9, List.drop_zero]
    rw [List.foldl_cons, ih (pushFrame init (some f)) (by rw [hlen]; split_ifs <;> omega),
        hlen, hpush]
    rw [List.append_assoc, List.singleton_append,
        ← List.drop_append_of_le_length (by omega : init.length - 9 ≤ init.length),
        List.drop_drop]
    congr 1
    simp only [List.length_cons]
    split_ifs <;> omega

/-- Claim C6: the gesture history log is bounded by 20 with FIFO eviction
(each push keeps at most the last 19 entries and appends), and after 25
accepted classifications starting from the empty log it holds exactly
entries 6 to 25 in arrival order, hence has length 20. -/
theorem c6_history_bound (e1 e2 e3 e4 e5 e6 e7 e8 e9 e10 e11 e12 e13 e14 e15 e16 e17 e18 e19 e20 e21 e22 e23 e24 e25 : GestureHistoryEntry) :
    List.foldl pushHistory [] [e1, e2, e3, e4, e5, e6, e7, e8, e9, e10, e11, e12, e13, e14, e15, e16, e17, e18, e19, e20, e21, e22, e23, e24, e25] = [e6, e7, e8, e9, e10, e11, e12, e13, e14, e15, e16, e17, e18, e19, e20, e21, e22, e23, e24, e25] ∧
      (List.foldl pushHistory [] [e1, e2, e3, e4, e5, e6, e7, e8, e9, e10, e11, e12, e13, e14, e15, e16, e17, e18, e19, e20, e21, e22, e23, e24, e25]).length = 20 ∧
      ∀ (h : List GestureHistoryEntry) (e : GestureHistoryEntry),
        (pushHistory h e).length ≤ max h.length 20 := by
  have hfold := foldl_pushHistory
    [e1, e2, e3, e4, e5, e6, e7, e8, e9, e10, e11, e12, e13, e14, e15, e16, e17,
     e18, e19, e20, e21, e22, e23, e24, e25] [] (by simp)
  refine ⟨?_, ?_, ?_⟩
  · rw [hfold]; rfl
  · rw [hfold]; rfl
  · intro h e
    unfold pushHistory
    rw [List.length_append, List.length_drop]
    simp only [List.length_cons, List.length_nil]
    omega

/-- Claim C7: the frame buffer is bounded by its capacity 10 with FIFO
eviction, and after submitting 15 frames starting from the empty buffer it
holds exactly the 10 most recent frames in arrival order. -/
theorem c7_frame_buffer_bound (f1 f2 f3 f4 f5 f6 f7 f8 f9 f10 f11 f12 f13 f14 f15 : ImageData) :
    List.foldl (fun b f => pushFrame b (some f)) [] [f1, f2, f3, f4, f5, f6, f7, f8, f9, f10, f11, f12, f13, f14, f15] = [f6, f7, f8, f9, f10, f11, f12, f13, f14, f15] ∧
      (List.foldl (fun b f => pushFrame b (some f)) [] [f1, f2, f3, f4, f5, f6, f7, f8, f9, f10, f11, f12, f13, f14, f15]).length = 10 ∧
      ∀ (b : List ImageData) (f : Option ImageData),
        (pushFrame b f).length ≤ max b.length maxFrameBuffer := by
  have hfold := foldl_pushFrame
    [f1, f2, f3, f4, f5, f6, f7, f8, f9, f10, f11, f12, f13, f14, f15] [] (by simp)
  refine ⟨?_, ?_, ?_⟩
  · rw [hfold]; rfl
  · rw [hfold]; rfl
  · intro b f
    unfold pushFrame maxFrameBuffer
    cases f with
    | none => simp
    | some fd =>
      split_ifs with hfull <;>
        rw [List.length_append, List.length_cons, List.length_nil] <;>
          first
            | (rw [List.length_drop]; omega)
            | omega

/-- Claim C8: after `resetSession` the session stats are all zero, the
current recognition is cleared, and the history, sequence and frame buffer
are empty, while the custom gesture set is unchanged. -/
theorem c8_reset_session (s : SessionState) :
    (resetSession s).sessionStats = ⟨0, 0, 0⟩ ∧
      (resetSession s).recognizedGesture = none ∧
      (resetSession s).confidence = 0 ∧
      (resetSession s).gestureHistory = [] ∧
      (resetSession s).gestureSequence = [] ∧
      (resetSession s).frameBuffer = [] ∧
      (resetSession s).customGestures = s.customGestures :=
  ⟨rfl, rfl, rfl, rfl, rfl, rfl, rfl⟩

set_option maxRecDepth 1000000 in
/-- Claim C4: for every buffer of at least 3 well-formed frames, the dynamic
classifier returns a swipe exactly when the accumulated `motionMagnitude`
over the two most recent frames exceeds 1000; the axis is chosen by
comparing `|horizontalMotion|` with `|verticalMotion|`, the direction by the
sign of that axis accumulator (Right/Left, Down/Up), and the confidence is
`min 85 (60 + motionMagnitude / 100)`; below the threshold the result is
null.  In particular two 10 by 10 frames differing only by a uniform +80
luminance shift on the right 50% of the pixels, at `motionThreshold` 50,
classify as Swipe Right with confidence 85 (and 85 is at most 85). -/
theorem c4_dynamic_swipe :
    (∀ (frames : List ImageData) (current previous : ImageData) (mt : ℚ),
      3 ≤ frames.length →
      frames.get? (frames.length - 1) = some current →
      frames.get? (frames.length - 2) = some previous →
      current.data.length = 4 * (current.width * current.height) →
      previous.data.length = current.data.length →
      analyzeDynamicGesture mt frames =
        (if motionMagnitude mt current previous > 1000 then
          some ⟨(if |horizontalMotion mt current previous| >
                    |verticalMotion mt current previous| then
                   (if horizontalMotion mt current previous > 0
                    then "Swipe Right" else "Swipe Left")
                 else
                   (if verticalMotion mt current previous > 0
                    then "Swipe Down" else "Swipe Up")),
                min 85 (60 + motionMagnitude mt current previous / 100)⟩
        else none)) ∧
      analyzeDynamicGesture 50 [frameA, frameA, frameB] = some ⟨"Swipe Right", 85⟩ ∧
      (85 : ℚ) ≤ 85 := by
  refine ⟨?_, by with_unfolding_all decide, le_refl 85⟩
  intro frames current previous mt hlen hcur hprev hwf hwfp
  unfold analyzeDynamicGesture
  rw [if_neg (by omega), hcur, hprev]
  simp only [motionStats_eq mt current previous hwf hwfp]
  split_ifs <;> rfl

/-- Claim C4 (witness): the general characterization applied to the
concrete three-frame buffer `[frameA, frameA, frameB]`. -/
theorem c4_dynamic_swipe_witness :
    analyzeDynamicGesture 50 [frameA, frameA, frameB] =
      (if motionMagnitude 50 frameB frameA > 1000 then
        some ⟨(if |horizontalMotion 50 frameB frameA| >
                  |verticalMotion 50 frameB frameA| then
                 (if horizontalMotion 50 frameB frameA > 0
                  then "Swipe Right" else "Swipe Left")
               else
                 (if verticalMotion 50 frameB frameA > 0
                  then "Swipe Down" else "Swipe Up")),
              min 85 (60 + motionMagnitude 50 frameB frameA / 100)⟩
      else none) :=
  c4_dynamic_swipe.1 [frameA, frameA, frameB] frameB frameA 50 (by decide) rfl rfl
    (by simp only [frameB, List.length_map, List.length_range])
    (by simp only [frameA, frameB, List.length_replicate, List.length_map, List.length_range])

theorem analyzeGesture_run (msqrt : ℚ → ℚ) (dm : DetectionMethod) (mt : ℚ)
    (lm : Bool) (buf : List ImageData) (custom : List String)
    (hand : Hand) (rest : List Hand) (s t : Option GestureResult)
    (hs : analyzeStaticGesture hand.landmarks = .ok s)
    (ht : analyzeTrackingGesture msqrt hand.landmarks = .ok t) :
    analyzeGesture msqrt dm mt lm buf custom (hand :: rest) =
      .ok (arbiterWinner dm mt buf s t,
           learnStep lm ((arbiterWinner dm mt buf s t).map (fun r => r.gesture))
             (confOf (arbiterWinner dm mt buf s t)) custom) := by
  cases dm with
  | manual =>
    cases s <;>
      simp [analyzeGesture, hs, arbiterWinner, confOf]
  | frameDiff =>
    by_cases hb : 3 ≤ buf.length
    · cases hdyn : analyzeDynamicGesture mt buf with
      | none =>
        cases s <;>
          simp [analyzeGesture, hs, hdyn, hb, arbiterWinner, applyOverride, confOf]
      | some d =>
        cases s with
        | none =>
          by_cases hcmp : d.confidence > 0 <;>
            simp [analyzeGesture, hs, hdyn, hb, hcmp, arbiterWinner, applyOverride, confOf]
        | some r =>
          by_cases hcmp : d.confidence > r.confidence <;>
            simp [analyzeGesture, hs, hdyn, hb, hcmp, arbiterWinner, applyOverride, confOf]
    · cases s <;>
        simp [analyzeGesture, hs, hb, arbiterWinner, applyOverride, confOf]
  | objectDetection =>
    cases t with
    | none =>
      cases s <;>
        simp [analyzeGesture, hs, ht, arbiterWinner, applyOverride, confOf]
    | some d =>
      cases s with
      | none =>
        by_cases hcmp : d.confidence > 0 <;>
          simp [analyzeGesture, hs, ht, hcmp, arbiterWinner, applyOverride, confOf]
      | some r =>
        by_cases hcmp : d.confidence > r.confidence <;>
          simp [analyzeGesture, hs, ht, hcmp, arbiterWinner, applyOverride, confOf]

theorem learnStep_true_eq (w : Option GestureResult) (custom : List String) :
    learnStep true ((w.map (fun r => r.gesture))) (confOf w) custom =
      learnSpec w custom := by
  cases w with
  | none => rfl
  | some r =>
    simp only [Option.map_some, learnStep, learnSpec, confOf, addCustomGesture,
      true_and]
    split_ifs <;> simp_all

/-- Claim C5: per frame the arbiter takes the static result on the first
hand; for `frame-diff` with at least 3 buffered frames it also runs the
dynamic classifier and replaces the winner exactly when the dynamic
confidence is strictly greater; for `object-detection` it also runs the
tracking classifier under the same strictly-greater override rule; the
learning step is applied to the final winner. -/
theorem c5_arbiter_selection (msqrt : ℚ → ℚ) (dm : DetectionMethod) (mt : ℚ)
    (lm : Bool) (buf : List ImageData) (custom : List String)
    (hand : Hand) (rest : List Hand) (s t : Option GestureResult)
    (hs : analyzeStaticGesture hand.landmarks = .ok s)
    (ht : analyzeTrackingGesture msqrt hand.landmarks = .ok t) :
    analyzeGesture msqrt dm mt lm buf custom (hand :: rest) =
      .ok (arbiterWinner dm mt buf s t,
           learnStep lm ((arbiterWinner dm mt buf s t).map (fun r => r.gesture))
             (confOf (arbiterWinner dm mt buf s t)) custom) :=
  analyzeGesture_run msqrt dm mt lm buf custom hand rest s t hs ht

/-- Claim C5 (witness): the arbiter at a concrete object-detection frame on
the all-zero hand: the static OK Hand result (confidence 90) survives the
tracking Pinch challenge (confidence 87). -/
theorem c5_arbiter_selection_witness :
    analyzeGesture (fun _ => 0) DetectionMethod.objectDetection 50 false [] []
        [⟨zeroHand⟩] =
      .ok (arbiterWinner DetectionMethod.objectDetection 50 []
             (some ⟨"OK Hand", 90⟩) (some ⟨"Pinch", 87⟩),
           learnStep false
             ((arbiterWinner DetectionMethod.objectDetection 50 []
                 (some ⟨"OK Hand", 90⟩) (some ⟨"Pinch", 87⟩)).map (fun r => r.gesture))
             (confOf (arbiterWinner DetectionMethod.objectDetection 50 []
                 (some ⟨"OK Hand", 90⟩) (some ⟨"Pinch", 87⟩))) []) :=
  c5_arbiter_selection (fun _ => 0) DetectionMethod.objectDetection 50 false [] []
    ⟨zeroHand⟩ [] (some ⟨"OK Hand", 90⟩) (some ⟨"Pinch", 87⟩)
    (by with_unfolding_all decide) (by with_unfolding_all decide)

/-- Claim C9: with learning mode active, the custom-gesture set after a
frame is the input set with the winning label appended exactly when the
winning confidence is strictly greater than 70 and the label is not already
present (this is `learnSpec`); in particular a winning result of confidence
90 with a fresh label "Spread" is added, and one of confidence 65 is not. -/
theorem c9_learning_mode :
    (∀ (msqrt : ℚ → ℚ) (dm : DetectionMethod) (mt : ℚ)
        (buf : List ImageData) (custom : List String)
        (hand : Hand) (rest : List Hand) (s t : Option GestureResult),
      analyzeStaticGesture hand.landmarks = .ok s →
      analyzeTrackingGesture msqrt hand.landmarks = .ok t →
      analyzeGesture msqrt dm mt true buf custom (hand :: rest) =
        .ok (arbiterWinner dm mt buf s t,
             learnSpec (arbiterWinner dm mt buf s t) custom)) ∧
      learnSpec (some ⟨"Spread", 90⟩) [] = ["Spread"] ∧
      learnSpec (some ⟨"Spread", 65⟩) [] = [] ∧
      learnStep true (some "Spread") 90 [] = ["Spread"] ∧
      learnStep true (some "Spread") 65 [] = [] := by
  refine ⟨?_, by with_unfolding_all decide, by with_unfolding_all decide,
    by with_unfolding_all decide, by with_unfolding_all decide⟩
  intro msqrt dm mt buf custom hand rest s t hs ht
  rw [analyzeGesture_run msqrt dm mt true buf custom hand rest s t hs ht,
      learnStep_true_eq]

/-- Claim C9 (witness): a learning-mode frame on the all-zero hand with the
manual method: the OK Hand winner (confidence 90, greater than 70, not yet
known) is added to the empty custom-gesture set. -/
theorem c9_learning_mode_witness :
    analyzeGesture (fun _ => 0) DetectionMethod.manual 50 true [] [] [⟨zeroHand⟩] =
      .ok (arbiterWinner DetectionMethod.manual 50 []
             (some ⟨"OK Hand", 90⟩) (some ⟨"Pinch", 87⟩),
           learnSpec (arbiterWinner DetectionMethod.manual 50 []
             (some ⟨"OK Hand", 90⟩) (some ⟨"Pinch", 87⟩)) []) :=
  c9_learning_mode.1 (fun _ => 0) DetectionMethod.manual 50 [] [] ⟨zeroHand⟩ []
    (some ⟨"OK Hand", 90⟩) (some ⟨"Pinch", 87⟩)
    (by with_unfolding_all decide) (by with_unfolding_all decide)

theorem mem_gestureLabelSet_ne (g : String) (hm : g ∈ gestureLabelSet) :
    g ≠ "Unknown" := by
  intro he
  subst he
  revert hm
  decide

/-- Claim C10: no classifier ever returns a result labelled "Unknown":
every non-null result of the static, dynamic or tracking classifier carries
a label from the fixed set of twelve gesture labels, so the arbiter's
"Unknown" sentinel check never rejects a classification. -/
theorem c10_no_unknown_label :
    (∀ (points : List Point) (r : GestureResult),
        analyzeStaticGesture points = .ok (some r) →
          r.gesture ∈ gestureLabelSet ∧ r.gesture ≠ "Unknown") ∧
      (∀ (mt : ℚ) (frames : List ImageData) (r : GestureResult),
        analyzeDynamicGesture mt frames = some r →
          r.gesture ∈ gestureLabelSet ∧ r.gesture ≠ "Unknown") ∧
      (∀ (msqrt : ℚ → ℚ) (points : List Point) (r : GestureResult),
        analyzeTrackingGesture msqrt points = .ok (some r) →
          r.gesture ∈ gestureLabelSet ∧ r.gesture ≠ "Unknown") := by
  refine ⟨fun points r h => ?_, fun mt frames r h => ?_, fun msqrt points r h => ?_⟩
  · have hm := analyzeStaticGesture_labels points r h
    exact ⟨hm, mem_gestureLabelSet_ne r.gesture hm⟩
  · have hm := analyzeDynamicGesture_labels mt frames r h
    exact ⟨hm, mem_gestureLabelSet_ne r.gesture hm⟩
  · have hm := analyzeTrackingGesture_labels msqrt points r h
    exact ⟨hm, mem_gestureLabelSet_ne r.gesture hm⟩

/-- Claim C10 (witness): the static classifier result on the all-zero hand
carries the label "OK Hand", which is in the label set and is not
"Unknown". -/
theorem c10_no_unknown_label_witness :
    (GestureResult.mk "OK Hand" 90).gesture ∈ gestureLabelSet ∧
      (GestureResult.mk "OK Hand" 90).gesture ≠ "Unknown" :=
  c10_no_unknown_label.1 zeroHand ⟨"OK Hand", 90⟩ (by with_unfolding_all decide)
